import Mathlib

/-!
Verification of the repair engine of `universal_debugger.py` (Bug-Be-Gone).

The development embeds, as executable Lean functions, the text-manipulation
core of the program: the indentation helpers, the indented-block extraction,
the try/except wrappers, the rule database dispatch of `fix_error`, the
traceback-frame selection of `parse_error`, and the bounded repair loop of
`main`.  Python strings are modelled as Lean `String`s (lists of characters);
file contents are modelled as the list of lines returned by `readlines`
(each line normally ending in a newline character); the regular expressions
hard-coded in the program are embedded as character-list scanners that
implement the exact matching semantics of those concrete patterns.
-/

set_option linter.unusedVariables false

/-- Single-quote character, written by code point to keep source lines plain. -/
def sqc : Char := Char.ofNat 39

/-- Double-quote character, written by code point for symmetry with `sqc`. -/
def dqc : Char := Char.ofNat 34

/-- Python `str.isspace` characters relevant to `strip`/`lstrip`/`rstrip`:
space, tab, newline, carriage return, vertical tab, form feed. -/
def pyIsSpace (c : Char) : Bool :=
  c = ' ' || c = Char.ofNat 9 || c = Char.ofNat 10 || c = Char.ofNat 13 ||
  c = Char.ofNat 11 || c = Char.ofNat 12

/-- Python `line.lstrip()`. -/
def pyLstrip (s : String) : String :=
  String.mk (s.toList.dropWhile pyIsSpace)

/-- Python `line.rstrip()`. -/
def pyRstrip (s : String) : String :=
  String.mk ((s.toList.reverse.dropWhile pyIsSpace).reverse)

/-- Python `line.strip()`. -/
def pyStrip (s : String) : String := pyRstrip (pyLstrip s)

/-- `len(line) - len(line.lstrip())`: the number of leading whitespace
characters of the line (the indentation measure used throughout the source). -/
def indentWidth (s : String) : Nat := s.length - (pyLstrip s).length

/-- `' ' * n`. -/
def spaces (n : Nat) : String := String.mk (List.replicate n ' ')

/-- `get_indent` (universal_debugger.py:17-19): extract indentation from a
line, as a string of that many spaces. -/
def get_indent (line : String) : String := spaces (indentWidth line)

/-- `wrap_in_try_except` (universal_debugger.py:22-27): wrap a single line in
a try/except block with proper indentation. -/
def wrap_in_try_except (line : String) (exception_type : String)
    (indent_level : Nat) : String :=
  let base_indent := spaces indent_level
  let inner_indent := spaces (indent_level + 4)
  base_indent ++ "try:\n" ++ inner_indent ++ pyStrip line ++ "\n" ++
    base_indent ++ "except " ++ exception_type ++ ":\n" ++
    inner_indent ++ "return \x7b\x7d\n"

/-- Body of the `while` loop of `get_indented_block`
(universal_debugger.py:39-52): walk the lines after the starting line,
keeping blank lines as `''`, keeping more-indented lines rstripped, and
stopping at the first non-blank line whose indentation is `≤ base_indent`. -/
def blockGo (base_indent : Nat) : List String → List String
  | [] => []
  | l :: ls =>
    if pyStrip l = "" then "" :: blockGo base_indent ls
    else if indentWidth l ≤ base_indent then []
    else pyRstrip l :: blockGo base_indent ls

/-- `get_indented_block` (universal_debugger.py:30-54): all lines in the
indented block starting from `start_idx`, together with the base
indentation.  Returns `([], 0)` when `start_idx` is out of range. -/
def get_indented_block (lines : List String) (start_idx : Nat) :
    List String × Nat :=
  if h : start_idx < lines.length then
    let base_indent := indentWidth (lines.get ⟨start_idx, h⟩)
    (pyRstrip (lines.get ⟨start_idx, h⟩) ::
       blockGo base_indent (lines.drop (start_idx + 1)), base_indent)
  else ([], 0)

/-- `'\n'.join(parts)`, recursively. -/
def joinNl : List String → String
  | [] => ""
  | [x] => x
  | x :: y :: t => x ++ "\n" ++ joinNl (y :: t)

/-- `wrap_block_in_try_except` (universal_debugger.py:57-74): wrap a
multi-line block in try/except, re-indenting each non-blank block line one
level deeper while preserving its relative extra indentation, and turning
blank block lines into empty lines. -/
def wrap_block_in_try_except (block_lines : List String) (base_indent : Nat)
    (exception_type : String) : String :=
  let sp := spaces base_indent
  let inner := spaces (base_indent + 4)
  let fixed_lines :=
    (sp ++ "try:") ::
      (block_lines.map (fun bl =>
        if pyStrip bl ≠ "" then
          inner ++ spaces (indentWidth bl - base_indent) ++ pyLstrip bl
        else "")) ++
      [sp ++ "except " ++ exception_type ++ ":", inner ++ "return \x7b\x7d"]
  joinNl fixed_lines ++ "\n"

/-- Python `s.split(chr(10))` on character lists: split at every newline,
keeping empty components. -/
def splitNlChars : List Char → List (List Char)
  | [] => [[]]
  | c :: cs =>
    let r := splitNlChars cs
    if c = Char.ofNat 10 then [] :: r
    else
      match r with
      | h :: t => (c :: h) :: t
      | [] => [[c]]

/-- Python `s.split(chr(10))` on strings. -/
def splitNl (s : String) : List String := (splitNlChars s.toList).map String.mk

/-- Try to strip the literal character list `p` from the front of the input,
returning the rest on success. -/
def dropLit : List Char → List Char → Option (List Char)
  | [], rest => some rest
  | _ :: _, [] => none
  | p :: ps, c :: cs => if c = p then dropLit ps cs else none

/-- Python substring containment `p in s` over character lists. -/
def hasLit (p : List Char) : List Char → Bool
  | [] => (dropLit p []).isSome
  | c :: cs => (dropLit p (c :: cs)).isSome || hasLit p cs

/-- Python `pat in s` on strings. -/
def hasSub (s pat : String) : Bool := hasLit pat.toList s.toList

/-- Python `s.startswith(pre)` on strings, implemented on character lists so
it evaluates by kernel reduction. -/
def startsWithLit (s pre : String) : Bool := (dropLit pre.toList s.toList).isSome

/-- Python `s.endswith(c)` for a one-character suffix, implemented on
character lists so it evaluates by kernel reduction. -/
def endsWithChar (s : String) (c : Char) : Bool :=
  match s.toList.reverse with
  | [] => false
  | x :: _ => x = c

/-- Python regex word character for ASCII text: letters, digits, underscore. -/
def wordChar (c : Char) : Bool := c.isAlphanum || c = '_'

/-- Numeric value of a digit run, as produced by `int()` on the captured
digits of a traceback line number. -/
def natOfDigits (ds : List Char) : Nat :=
  ds.foldl (fun a c => a * 10 + (c.toNat - 48)) 0

/-- Python `s.count(p)` (non-overlapping occurrence count) over char lists. -/
def countSubChars (p : List Char) : List Char → Nat
  | [] => 0
  | c :: cs =>
    match dropLit p (c :: cs) with
    | some _ => 1 + countSubChars p (List.drop (p.length - 1) cs)
    | none => countSubChars p cs
termination_by l => l.length
decreasing_by
  all_goals simp [List.length_drop] <;> omega

/-- Python `s.count(p)` on strings. -/
def countSub (s pat : String) : Nat := countSubChars pat.toList s.toList

/-- Generic single-substitution scanner: find the leftmost position where the
position matcher `m` succeeds, and replace the matched span by the
replacement it yields (the semantics of `re.sub(pattern, repl, line, 1)`
for the concrete patterns embedded below).  Returns `none` if no position
matches. -/
def subOnce (m : List Char → Option (List Char × List Char)) :
    List Char → Option (List Char)
  | [] => none
  | c :: cs =>
    match m (c :: cs) with
    | some (repl, rest) => some (repl ++ rest)
    | none => (subOnce m cs).map (fun r => c :: r)

/-- Search-anywhere success test for a position matcher (`re.search`
existence). -/
def hasMatch (m : List Char → Option (List Char × List Char)) (s : String) :
    Bool := (subOnce m s.toList).isSome

/-- Position matcher for the trigger regex of the FileNotFoundError rule
(universal_debugger.py:180): literal `open`, then any run of whitespace,
then an opening parenthesis. -/
def matchOpenHere (cs : List Char) : Option (List Char × List Char) :=
  match dropLit "open".toList cs with
  | some r =>
    match r.dropWhile pyIsSpace with
    | '(' :: _ => some ([], [])
    | _ => none
  | none => none

/-- Position matcher for the chained-access trigger of the first KeyError
rule (universal_debugger.py:191): a closing bracket, optional whitespace,
then an opening bracket. -/
def matchBracketPairHere (cs : List Char) : Option (List Char × List Char) :=
  match cs with
  | ']' :: r =>
    match r.dropWhile pyIsSpace with
    | '[' :: _ => some ([], [])
    | _ => none
  | _ => none

/-- Position matcher and substitution for the literal-key KeyError rule
(universal_debugger.py:196-202): a word-character run, an opening bracket, a
quote, a non-empty run free of both quote characters, the same quote again,
and a closing bracket; the replacement rewrites the keyed access to
a defaulting `.get` call, as in the rule's `re.sub` template. -/
def matchLitKeyHere (cs : List Char) : Option (List Char × List Char) :=
  let run := cs.takeWhile wordChar
  if run.isEmpty then none
  else
    match cs.drop run.length with
    | '[' :: rest =>
      match rest with
      | q :: rest2 =>
        if q = sqc || q = dqc then
          let key := rest2.takeWhile (fun c => c ≠ sqc && c ≠ dqc)
          if key.isEmpty then none
          else
            match rest2.drop key.length with
            | q2 :: ']' :: rest3 =>
              if q2 = q then
                some (run ++ ".get(".toList ++ [q] ++ key ++ [q] ++
                        ", None)".toList, rest3)
              else none
            | _ => none
        else none
      | [] => none
    | _ => none

/-- Position matcher and substitution for the variable-key KeyError rule
(universal_debugger.py:206-212): a word run, an opening bracket, a word run,
a closing bracket, rewritten to a defaulting `.get` call. -/
def matchVarKeyHere (cs : List Char) : Option (List Char × List Char) :=
  let run := cs.takeWhile wordChar
  if run.isEmpty then none
  else
    match cs.drop run.length with
    | '[' :: rest =>
      let key := rest.takeWhile wordChar
      if key.isEmpty then none
      else
        match rest.drop key.length with
        | ']' :: rest2 =>
          some (run ++ ".get(".toList ++ key ++ ", None)".toList, rest2)
        | _ => none
    | _ => none

/-- Test whether one of the keywords `with`, `for`, `while` occurs at this
position with a word boundary after it. -/
def kwAt (kw : List Char) (cs : List Char) : Bool :=
  match dropLit kw cs with
  | some r =>
    match r with
    | [] => true
    | c :: _ => !(wordChar c)
  | none => false

/-- Scanner for the block-header regex of `fix_error`
(universal_debugger.py:843): whether `with`, `for` or `while` occurs in the
text delimited by word boundaries on both sides.  `prevWord` records whether
the previous character was a word character. -/
def hasKwAux : Bool → List Char → Bool
  | _, [] => false
  | prevWord, c :: cs =>
    (!prevWord && (kwAt "with".toList (c :: cs) || kwAt "for".toList (c :: cs)
      || kwAt "while".toList (c :: cs))) || hasKwAux (wordChar c) cs

/-- Whether the failing line contains a `with`, `for` or `while` keyword, as
tested by `fix_error` before block wrapping. -/
def hasBlockKeyword (s : String) : Bool := hasKwAux false s.toList

/-- Triple double-quote, the first docstring delimiter tested by
`_fix_unbound_local_error`. -/
def tripleD : String := String.mk [dqc, dqc, dqc]

/-- Triple single-quote, the second docstring delimiter tested by
`_fix_unbound_local_error`. -/
def tripleS : String := String.mk [sqc, sqc, sqc]

/-- Position matcher for the message regex of `_fix_unbound_local_error`
(universal_debugger.py:110): the literal text `local variable` followed by a
quoted word, returning the captured variable name. -/
def ulVarHere (cs : List Char) : Option String :=
  match dropLit ("local variable ".toList ++ [sqc]) cs with
  | some r =>
    let run := r.takeWhile wordChar
    if run.isEmpty then none
    else
      match r.drop run.length with
      | c :: _ => if c = sqc then some (String.mk run) else none
      | [] => none
  | none => none

/-- Leftmost search for `ulVarHere` over the whole error message. -/
def ulVarScan : List Char → Option String
  | [] => none
  | c :: cs =>
    match ulVarHere (c :: cs) with
    | some v => some v
    | none => ulVarScan cs

/-- Anchored match of the function-header regex of
`_fix_unbound_local_error` (universal_debugger.py:120): optional leading
whitespace, the keyword `def`, at least one whitespace character, a name,
optional whitespace, and an opening parenthesis. -/
def isDefLine (s : String) : Bool :=
  let r1 := s.toList.dropWhile pyIsSpace
  match dropLit "def".toList r1 with
  | some r2 =>
    let ws := r2.takeWhile pyIsSpace
    if ws.isEmpty then false
    else
      let r3 := r2.drop ws.length
      let run := r3.takeWhile wordChar
      if run.isEmpty then false
      else
        match (r3.drop run.length).dropWhile pyIsSpace with
        | '(' :: _ => true
        | _ => false
  | none => false

/-- Backward search of `_fix_unbound_local_error` (universal_debugger.py:
117-122): the largest index `i ≤ start` whose line matches the function
header regex, or `none`. -/
def findDefIdxAux (lines : List String) : Nat → Option Nat
  | 0 => if isDefLine (lines.getD 0 "") then some 0 else none
  | i + 1 =>
    if isDefLine (lines.getD (i + 1) "") then some (i + 1)
    else findDefIdxAux lines i

/-- The `while` loop that skips to the end of a multi-line docstring
(universal_debugger.py:143-148), expressed on the list of lines after the
docstring opener: number of lines consumed (the loop advances one line at a
time and stops just after the first line containing the closing quotes). -/
def dsSkipAux (qt : String) : List String → Nat
  | [] => 0
  | l :: ls => if hasSub l qt then 1 else 1 + dsSkipAux qt ls

/-- Result of the special UnboundLocalError handler: the message regex did
not match, the variable was found already initialized, or the initializer
line was inserted (with the resulting buffer). -/
inductive ULResult where
  | noMatch : ULResult
  | alreadyInit : ULResult
  | inserted : List String → ULResult
deriving DecidableEq, Repr

/-- `_fix_unbound_local_error` (universal_debugger.py:103-171): find the
enclosing function header backwards from the failing line, skip a docstring
immediately after it, report `alreadyInit` when an initializer for the same
variable already occurs in the first few lines after the header (checked by
text containment), and otherwise insert a fresh initializer line at the
start of the function body.  The `indent` argument is accepted and unused,
exactly as in the source. -/
def fixUnboundLocal (lines : List String) (line_number : Nat)
    (indent : String) (error_msg : String) : ULResult :=
  match ulVarScan error_msg.toList with
  | none => ULResult.noMatch
  | some var_name =>
    let func_line_idx := (findDefIdxAux lines (line_number - 1)).getD 0
    let insert_idx0 := func_line_idx + 1
    let insert_idx :=
      if insert_idx0 < lines.length then
        let stripped := pyStrip (lines.getD insert_idx0 "")
        if startsWithLit stripped tripleD || startsWithLit stripped tripleS then
          let qt := if startsWithLit stripped tripleD then tripleD else tripleS
          if 2 ≤ countSub stripped qt then insert_idx0 + 1
          else insert_idx0 + 1 + dsSkipAux qt (lines.drop (insert_idx0 + 1))
        else insert_idx0
      else insert_idx0
    let checkEnd := min (insert_idx + 3) lines.length
    let already := ((List.range checkEnd).drop (func_line_idx + 1)).any
      (fun i => hasSub (lines.getD i "") (var_name ++ " = None") &&
                hasSub (lines.getD i "") "Initialize")
    if already then ULResult.alreadyInit
    else
      let func_indent := get_indent (lines.getD func_line_idx "")
      let body_indent := func_indent ++ "    "
      let init_line := body_indent ++ var_name ++
        " = None  # Initialize to fix UnboundLocalError\n"
      ULResult.inserted (lines.take insert_idx ++ [init_line] ++
        lines.drop insert_idx)

/-- The `fix` field of a rule entry of `ERROR_DATABASE`: either an ordinary
transform (a function of the failing line, its indentation string and the
error message, returning the replacement text, or `none` when the Python
callable would raise), or the string sentinel `special_unbound_local`
dispatching to the dedicated handler. -/
inductive FixKind where
  | transform : (String → String → String → Option String) → FixKind
  | specialUnboundLocal : FixKind

/-- One entry of a `patterns` list of `ERROR_DATABASE`
(universal_debugger.py:175-727): the trigger regex (embedded as a decidable
test on the failing line's raw text), the fix, and the `multiline` flag. -/
structure Pattern where
  detect : String → Bool
  fix : FixKind
  multiline : Bool

/-- A write of the whole modified buffer to the target file.  The source
persists the buffer with `open(file_path, 'w')` followed by `writelines`
(universal_debugger.py:833-834 and 884-885), which truncates the file in
place: that is `truncateWrite`.  The alternative constructor
`writeThenRename` stands for a persistence step that writes a temporary
file and atomically renames it over the target; it is part of the type so
that the persistence mechanism used by the code can be stated, and it is
never produced by the embedding because the source contains no such step. -/
inductive FileWrite where
  | truncateWrite : List String → FileWrite
  | writeThenRename : List String → FileWrite
deriving DecidableEq, Repr

/-- Modelled from the spec: `persist the buffer to disk atomically
(write-then-rename or equivalent)` — the predicate picking out the atomic
persistence mechanism the specification claims. -/
def isWriteThenRename : FileWrite → Bool
  | FileWrite.writeThenRename _ => true
  | FileWrite.truncateWrite _ => false

/-- First KeyError rule (universal_debugger.py:190-194): chained access,
wrap the line in a broad try/except. -/
def KE0 : Pattern :=
  { detect := fun l => hasMatch matchBracketPairHere l,
    fix := FixKind.transform (fun line indent _ =>
      some (wrap_in_try_except line "(IndexError, KeyError, TypeError)"
        indent.length)),
    multiline := true }

/-- Second KeyError rule (universal_debugger.py:195-204): literal keys,
rewritten by a single substitution to a defaulting `.get` call. -/
def KE1 : Pattern :=
  { detect := fun l => hasMatch matchLitKeyHere l,
    fix := FixKind.transform (fun line _ _ =>
      some (match subOnce matchLitKeyHere line.toList with
            | some r => String.mk r
            | none => line)),
    multiline := false }

/-- Third KeyError rule (universal_debugger.py:205-214): variable keys,
rewritten by a single substitution to a defaulting `.get` call. -/
def KE2 : Pattern :=
  { detect := fun l => hasMatch matchVarKeyHere l,
    fix := FixKind.transform (fun line _ _ =>
      some (match subOnce matchVarKeyHere line.toList with
            | some r => String.mk r
            | none => line)),
    multiline := false }

/-- The FileNotFoundError rule (universal_debugger.py:176-185). -/
def FNF0 : Pattern :=
  { detect := fun l => hasMatch matchOpenHere l,
    fix := FixKind.transform (fun line indent _ =>
      some (wrap_in_try_except line "FileNotFoundError" indent.length)),
    multiline := true }

/-- The UnboundLocalError rule (universal_debugger.py:399-408): a
match-anything trigger dispatching to the special handler. -/
def ULP : Pattern :=
  { detect := fun _ => true,
    fix := FixKind.specialUnboundLocal,
    multiline := false }

/-- The rule registry `ERROR_DATABASE` (universal_debugger.py:175-727),
embedded for the failure classes the claims exercise; every unembedded
class is treated exactly like a class absent from the dictionary, and the
theorems about the engine's control flow quantify over an arbitrary
database.  The Python source builds the dictionary with duplicate keys, so
the embedded value of a class is the last entry for that key, the one the
loaded dictionary actually holds. -/
def ERROR_DATABASE : String → Option (List Pattern)
  | "FileNotFoundError" => some [FNF0]
  | "KeyError" => some [KE0, KE1, KE2]
  | "UnboundLocalError" => some [ULP]
  | _ => none

/-- The splice preparation of `fix_error` (universal_debugger.py:863-864):
split the replacement text on newlines, keep only non-empty pieces, and
give each kept piece a trailing newline. -/
def blockReplacementLines (fixed : String) : List String :=
  ((splitNl fixed).filter (fun l => l ≠ "")).map (fun l => l ++ "\n")

/-- One iteration of the pattern loop of `fix_error`
(universal_debugger.py:826-893) for a single rule: `none` when the trigger
does not match, when the special UnboundLocalError handler returns a falsy
value, or when the transform raises; otherwise the modified buffer.  For a
multiline rule on a block-opening failing line the whole indented block is
replaced (with the dedicated block wrapper for the three listed classes);
for other multiline rules the failing line alone is overwritten with the
transform output as is; for single-line rules the failing line is
overwritten with the output, newline-terminated. -/
def applyPattern (error_type : String) (p : Pattern) (lines : List String)
    (line_number : Nat) (target_line indent error_message : String) :
    Option (List String) :=
  if p.detect target_line then
    match p.fix with
    | FixKind.specialUnboundLocal =>
      match fixUnboundLocal lines line_number indent error_message with
      | ULResult.inserted newLines => some newLines
      | _ => none
    | FixKind.transform f =>
      let needs_block_wrap := p.multiline &&
        (hasBlockKeyword target_line || endsWithChar (pyStrip target_line) ':')
      if needs_block_wrap then
        let bb := get_indented_block lines (line_number - 1)
        if bb.1.isEmpty then
          match f target_line indent error_message with
          | some fixed =>
            some (lines.set (line_number - 1)
              (if endsWithChar fixed (Char.ofNat 10) then fixed
               else fixed ++ "\n"))
          | none => none
        else
          let fixedOpt :=
            if (["FileNotFoundError", "JSONDecodeError",
                 "PermissionError"]).contains error_type then
              some (wrap_block_in_try_except bb.1 bb.2 error_type)
            else f target_line indent error_message
          match fixedOpt with
          | some fixed =>
            some (lines.take (line_number - 1) ++ blockReplacementLines fixed
              ++ lines.drop (line_number - 1 + bb.1.length))
          | none => none
      else if p.multiline then
        match f target_line indent error_message with
        | some fixed => some (lines.set (line_number - 1) fixed)
        | none => none
      else
        match f target_line indent error_message with
        | some fixed =>
          some (lines.set (line_number - 1)
            (if endsWithChar fixed (Char.ofNat 10) then fixed
               else fixed ++ "\n"))
        | none => none
  else none

/-- The pattern loop of `fix_error` (universal_debugger.py:826-893): try the
class's rules strictly in list order; the first rule that matches and whose
application succeeds writes the modified buffer back and reports success; a
rule that fails to apply falls through to the next one; if no rule applies
the engine reports failure without writing. -/
def tryPatterns (error_type : String) (patterns : List Pattern)
    (lines : List String) (line_number : Nat)
    (target_line indent error_message : String) : Bool × List FileWrite :=
  match patterns with
  | [] => (false, [])
  | p :: rest =>
    match applyPattern error_type p lines line_number target_line indent
      error_message with
    | some newLines => (true, [FileWrite.truncateWrite newLines])
    | none =>
      tryPatterns error_type rest lines line_number target_line indent
        error_message

/-- `fix_error` (universal_debugger.py:804-897): apply the hard-coded fix
for the error type at the given 1-based line number.  The buffer `lines` is
the file's content as read by `readlines`; the file read itself is modelled
as given (a failed read returns `False` before any write, like the absent
class).  The result is the reported success flag together with the list of
file writes performed (at most one, the truncating write-back of 833-834 or
884-885). -/
def fix_error (db : String → Option (List Pattern)) (error_type : String)
    (line_number : Nat) (error_message : String) (lines : List String) :
    Bool × List FileWrite :=
  match db error_type with
  | none => (false, [])
  | some patterns =>
    if lines.length < line_number ∨ line_number = 0 then (false, [])
    else
      let target_line := lines.getD (line_number - 1) ""
      let indent := get_indent target_line
      tryPatterns error_type patterns lines line_number target_line indent
        error_message

/-- The literal that opens a stack-frame reference in a traceback line. -/
def fileLit : String := "File " ++ String.mk [dqc]

/-- Anchored match of the frame regex of `parse_error`
(universal_debugger.py:776): the `File` literal, an opening quote, a
non-empty quote-free path, the closing quote, the literal comma-line text,
and a non-empty digit run giving the 1-based line number. -/
def matchFrameHere (cs : List Char) : Option (String × Nat) :=
  match dropLit fileLit.toList cs with
  | some r1 =>
    let path := r1.takeWhile (fun c => c ≠ dqc)
    if path.isEmpty then none
    else
      match dropLit ([dqc] ++ ", line ".toList) (r1.drop path.length) with
      | some r3 =>
        let digits := r3.takeWhile Char.isDigit
        if digits.isEmpty then none
        else some (String.mk path, natOfDigits digits)
      | none => none
  | none => none

/-- Leftmost search of the frame regex in one traceback line. -/
def searchFrame : List Char → Option (String × Nat)
  | [] => none
  | c :: cs =>
    match matchFrameHere (c :: cs) with
    | some r => some r
    | none => searchFrame cs

/-- Frame extraction for one line of the failure output
(universal_debugger.py:775-779), including the cheap containment pre-check
of line 775. -/
def extractFrame (line : String) : Option (String × Nat) :=
  if hasSub line fileLit && hasSub line ", line " then searchFrame line.toList
  else none

/-- The system-file test of `parse_error` (universal_debugger.py:782): a
path in angle brackets or below a `/lib/python` directory belongs to the
runtime's own internals. -/
def isInternalPath (f : String) : Bool :=
  startsWithLit f "<" || hasSub f "/lib/python"

/-- All stack-frame references appearing in the output lines, in text order,
before the system-file filter. -/
def rawFrames (ls : List String) : List (String × Nat) :=
  ls.filterMap extractFrame

/-- The frame collection loop of `parse_error` (universal_debugger.py:
772-783): every frame reference in text order, with the runtime's internal
frames discarded. -/
def collectFrames (ls : List String) : List (String × Nat) :=
  ls.filterMap (fun l =>
    match extractFrame l with
    | some fr => if !(isInternalPath fr.1) then some fr else none
    | none => none)

/-- The frame-selection logic of `parse_error` (universal_debugger.py:
785-799) on the already-split output lines.  Paths are modelled as the
canonical absolute paths that `os.path.abspath` yields on both sides of the
code's comparison, so path equality is string equality.  With a target
filter, the last frame of the target file is chosen when one exists; the
fallback of line 798 otherwise picks the last collected frame overall. -/
def parse_error_frame (stderrLines : List String)
    (target_script : Option String) : Option (String × Nat) :=
  let all_frames := collectFrames stderrLines
  let firstPick : Option (String × Nat) :=
    match target_script with
    | some t =>
      if all_frames.isEmpty then none
      else
        let target_frames := all_frames.filter (fun p => p.1 == t)
        if target_frames.isEmpty then none else target_frames.getLast?
    | none => none
  match firstPick with
  | some r => some r
  | none => if all_frames.isEmpty then none else all_frames.getLast?

/-- Modelled from the spec: `If a target-file filter is supplied, keep
frames belonging to that file and choose the innermost (last) one;
otherwise choose the innermost frame overall`, with the innermost frame
overall also chosen when no collected frame belongs to the target file. -/
def specSelectFrame (frames : List (String × Nat))
    (target : Option String) : Option (String × Nat) :=
  match target with
  | some t =>
    match (frames.filter (fun p => p.1 == t)).getLast? with
    | some p => some p
    | none => frames.getLast?
  | none => frames.getLast?

/-- What one iteration of the repair loop of `main`
(universal_debugger.py:925-971) observes from the world: a clean exit of
the target program, a failure whose class could not be determined, a
failure without an attributable frame, a failure attributed to a file other
than the target, or an in-target diagnostic carrying its failure class, its
1-based line, and whether `fix_error` succeeds on it.  The last component
abstracts the patch engine's result, which depends on the disk state the
subprocess runs against. -/
inductive IterEvent where
  | clean : IterEvent
  | noType : IterEvent
  | noLocation : IterEvent
  | externalFile : IterEvent
  | diag : String → Nat → Bool → IterEvent
deriving DecidableEq, Repr

/-- The terminal states of a repair session, named as in the specification;
`Converged` is the clean-exit break, `Unrecoverable` covers the breaks for
an undetermined class, a missing location, an external file and a failed
fix, `Cycled` is the already-tried break, and `IterationLimitReached` is
the exhaustion of the `while` bound. -/
inductive Outcome where
  | Converged : Outcome
  | Unrecoverable : Outcome
  | Cycled : Outcome
  | IterationLimitReached : Outcome
deriving DecidableEq, Repr

/-- The state in which a repair session ends: its terminal outcome, the
final value of `iteration`, the successful patch records (as
(failureClass, sourceLine) pairs; `fixed_errors` in the source stores
exactly their descriptor strings), and the list of arguments with which the
patch engine `fix_error` was invoked. -/
structure LoopResult where
  outcome : Outcome
  iteration : Nat
  records : List (String × Nat)
  engineCalls : List (String × Nat)
deriving DecidableEq, Repr

/-- The signature string `main` builds for a diagnostic
(universal_debugger.py:958). -/
def descriptor (et : String) (ln : Nat) : String :=
  et ++ " at line " ++ toString ln

/-- The repair loop of `main` (universal_debugger.py:921-975), with `fuel`
the remaining iterations `max_iterations - iteration`.  Each pass runs the
program (the environment `env`, indexed by the iteration number, supplies
what the run and its parse yield), breaks on a clean exit or an
unattributable or external failure, breaks as `Cycled` when the incoming
descriptor is already among the recorded ones before invoking the engine,
and otherwise invokes the patch engine, recording the signature on success
and breaking on failure. -/
def repairLoop (env : Nat → IterEvent) :
    Nat → Nat → List (String × Nat) → List (String × Nat) → LoopResult
  | 0, iter, records, calls =>
    ⟨Outcome.IterationLimitReached, iter, records, calls⟩
  | fuel + 1, iter, records, calls =>
    let i := iter + 1
    match env i with
    | IterEvent.clean => ⟨Outcome.Converged, i, records, calls⟩
    | IterEvent.noType => ⟨Outcome.Unrecoverable, i, records, calls⟩
    | IterEvent.noLocation => ⟨Outcome.Unrecoverable, i, records, calls⟩
    | IterEvent.externalFile => ⟨Outcome.Unrecoverable, i, records, calls⟩
    | IterEvent.diag et ln fixOk =>
      if descriptor et ln ∈ records.map (fun r => descriptor r.1 r.2) then
        ⟨Outcome.Cycled, i, records, calls⟩
      else if fixOk then
        repairLoop env fuel i (records ++ [(et, ln)]) (calls ++ [(et, ln)])
      else ⟨Outcome.Unrecoverable, i, records, calls ++ [(et, ln)]⟩

/-- `max_iterations = 100` (universal_debugger.py:921). -/
def max_iterations : Nat := 100

/-- A full repair session: the loop started with `iteration = 0` and no
recorded patches (universal_debugger.py:921-923). -/
def runSession (env : Nat → IterEvent) : LoopResult :=
  repairLoop env max_iterations 0 [] []

theorem repairLoop_iteration_le (env : Nat → IterEvent) :
    ∀ fuel iter records calls,
      (repairLoop env fuel iter records calls).iteration ≤ iter + fuel := by
  intro fuel
  induction fuel with
  | zero => intro iter r c; simp [repairLoop]
  | succ n ih =>
    intro iter r c
    cases henv : env (iter + 1) with
    | clean => simp [repairLoop, henv]
    | noType => simp [repairLoop, henv]
    | noLocation => simp [repairLoop, henv]
    | externalFile => simp [repairLoop, henv]
    | diag et ln ok =>
      by_cases hmem : descriptor et ln ∈ r.map (fun x => descriptor x.1 x.2)
      · simp [repairLoop, henv, hmem]
      · by_cases hk : ok
        · have h2 := ih (iter + 1) (r ++ [(et, ln)]) (c ++ [(et, ln)])
          simp [repairLoop, henv, hmem, hk]
          omega
        · simp [repairLoop, henv, hmem, hk]

/-- C1: for every target program and rule registry (abstracted by the
environment the loop observes), a repair session reaches one of the
terminal outcomes Converged, Unrecoverable, Cycled or
IterationLimitReached within the configured iteration bound of 100
iterations; the repair loop never iterates past that bound. -/
theorem C1_session_terminates_within_bound (env : Nat → IterEvent) :
    (runSession env).iteration ≤ 100 ∧
      ((runSession env).outcome = Outcome.Converged ∨
       (runSession env).outcome = Outcome.Unrecoverable ∨
       (runSession env).outcome = Outcome.Cycled ∨
       (runSession env).outcome = Outcome.IterationLimitReached) := by
  constructor
  · have h := repairLoop_iteration_le env 100 0 [] []
    simpa [runSession, max_iterations] using h
  · cases h : (runSession env).outcome <;> simp

theorem repairLoop_records_nodup (env : Nat → IterEvent) :
    ∀ fuel iter records calls, records.Nodup →
      (repairLoop env fuel iter records calls).records.Nodup := by
  intro fuel
  induction fuel with
  | zero => intro iter r c h; simpa [repairLoop] using h
  | succ n ih =>
    intro iter r c h
    cases henv : env (iter + 1) with
    | clean => simpa [repairLoop, henv] using h
    | noType => simpa [repairLoop, henv] using h
    | noLocation => simpa [repairLoop, henv] using h
    | externalFile => simpa [repairLoop, henv] using h
    | diag et ln ok =>
      by_cases hmem : descriptor et ln ∈ r.map (fun x => descriptor x.1 x.2)
      · simpa [repairLoop, henv, hmem] using h
      · by_cases hk : ok
        · have hnotin : (et, ln) ∉ r := fun hc =>
            hmem (List.mem_map_of_mem _ hc)
          have hnd : (r ++ [(et, ln)]).Nodup := by
            simp [List.nodup_append, h, hnotin]
          simpa [repairLoop, henv, hmem, hk] using
            ih (iter + 1) (r ++ [(et, ln)]) (c ++ [(et, ln)]) hnd
        · simpa [repairLoop, henv, hmem, hk] using h

/-- C2: starting from any session state whose successful patch records
carry pairwise-distinct (failureClass, sourceLine) signatures — as the
initial empty state does — the records stay pairwise distinct in every
state the loop can reach, and when a diagnostic arrives whose signature is
already recorded the session ends in the Cycled terminal state with the
patch-engine invocation list unchanged, i.e. before `fix_error` is invoked
again. -/
theorem C2_unique_signatures_and_cycle_stop (env : Nat → IterEvent)
    (iter : Nat) (records calls : List (String × Nat))
    (h : records.Nodup) :
    (∀ fuel, (repairLoop env fuel iter records calls).records.Nodup) ∧
    (∀ fuel et ln fixOk, env (iter + 1) = IterEvent.diag et ln fixOk →
      (et, ln) ∈ records →
      repairLoop env (fuel + 1) iter records calls =
        ⟨Outcome.Cycled, iter + 1, records, calls⟩) := by
  constructor
  · intro fuel; exact repairLoop_records_nodup env fuel iter records calls h
  · intro fuel et ln fixOk henv hmem
    have hd : descriptor et ln ∈ records.map (fun r => descriptor r.1 r.2) :=
      List.mem_map_of_mem _ hmem
    simp [repairLoop, henv, hd]

/-- Witness for C2 at a concrete state: with `KeyError at line 7` already
recorded, the next iteration's identical diagnostic ends the session
Cycled, with no new engine invocation. -/
theorem C2_witness :
    (([("KeyError", 7)] : List (String × Nat)).Nodup) ∧
    repairLoop (fun _ => IterEvent.diag "KeyError" 7 true) 5 3
        [("KeyError", 7)] [] =
      ⟨Outcome.Cycled, 4, [("KeyError", 7)], []⟩ :=
  ⟨by decide,
   (C2_unique_signatures_and_cycle_stop
      (fun _ => IterEvent.diag "KeyError" 7 true) 3 [("KeyError", 7)] []
      (by decide)).2 4 "KeyError" 7 true rfl (by decide)⟩

theorem blockGo_length (base : Nat) (rest : List String) :
    (blockGo base rest).length =
      (rest.takeWhile (fun l =>
        (pyStrip l == "") || decide (base < indentWidth l))).length := by
  induction rest with
  | nil => rfl
  | cons l ls ih =>
    by_cases hb : pyStrip l = ""
    · simp [blockGo, hb, List.takeWhile_cons, ih]
    · by_cases hi : indentWidth l ≤ base
      · have hlt : ¬ base < indentWidth l := Nat.not_lt.mpr hi
        simp [blockGo, hb, hi, List.takeWhile_cons, hlt]
      · have hlt : base < indentWidth l := Nat.lt_of_not_le hi
        simp [blockGo, hb, hi, List.takeWhile_cons, hlt, ih]

/-- Modelled from the spec: the Block-scope span the claim describes — the
failing line plus the immediately following lines whose indentation is
strictly greater than the failing line's indentation, the span ending at
the first line whose indentation is less than or equal to the failing
line's, or at end of file. -/
def specSpanLen (lines : List String) (i : Nat) : Nat :=
  1 + ((lines.drop (i + 1)).takeWhile
    (fun l => decide (indentWidth (lines.getD i "") < indentWidth l))).length

/-- A nested block with a blank line inside it: the failing line is the
`if` header at index 1 (indentation 4). -/
def ex3 : List String :=
  ["def f():\n", "    if x:\n", "        a = 1\n", "\n", "        b = 2\n",
   "    c = 3\n"]

/-- C3: counterexample.  On `ex3` with the failing line at index 1, the
blank line at index 3 has indentation at most 4 under the code's own
indentation measure, so the claimed span stops before it and has two
lines; the code's span runs through the blank line and has four lines, so
the replaced span is not the one the claim describes. -/
theorem C3_counterexample_blank_line_span :
    (get_indented_block ex3 1).1.length = 4 ∧ specSpanLen ex3 1 = 2 ∧
      indentWidth (ex3.getD 3 "") ≤ indentWidth (ex3.getD 1 "") := by
  refine ⟨by decide, by decide, by decide⟩

/-- C3 (amended): for every source buffer and failing line patched with
Block scope, the replaced span is the failing line plus the maximal run of
immediately following lines each of which is either blank or indented
strictly more than the failing line; the span ends at the first non-blank
line whose indentation is less than or equal to the failing line's, or at
end of file.  Blank lines do not terminate the span and are counted inside
it. -/
theorem C3_block_span_blank_aware (lines : List String) (i : Nat)
    (h : i < lines.length) :
    (get_indented_block lines i).1.length =
      1 + ((lines.drop (i + 1)).takeWhile
        (fun l => (pyStrip l == "") ||
          decide (indentWidth (lines.get ⟨i, h⟩) < indentWidth l))).length := by
  simp [get_indented_block, h, blockGo_length]
  omega

/-- Witness for C3 (amended) at the concrete buffer `ex3`. -/
theorem C3_block_span_blank_aware_witness :
    (get_indented_block ex3 1).1.length =
      1 + ((ex3.drop 2).takeWhile
        (fun l => (pyStrip l == "") ||
          decide (indentWidth (ex3.get ⟨1, by decide⟩) < indentWidth l))).length :=
  C3_block_span_blank_aware ex3 1 (by decide)

theorem tryPatterns_shape (et : String) (ps : List Pattern)
    (lines : List String) (n : Nat) (t ind msg : String) :
    tryPatterns et ps lines n t ind msg = (false, []) ∨
    ∃ nl, tryPatterns et ps lines n t ind msg =
      (true, [FileWrite.truncateWrite nl]) := by
  induction ps with
  | nil => left; rfl
  | cons p rest ih =>
    cases hap : applyPattern et p lines n t ind msg with
    | some nl => right; exact ⟨nl, by simp [tryPatterns, hap]⟩
    | none => simpa [tryPatterns, hap] using ih

theorem fix_error_shape (db : String → Option (List Pattern)) (et : String)
    (n : Nat) (msg : String) (lines : List String) :
    fix_error db et n msg lines = (false, []) ∨
    ∃ nl, fix_error db et n msg lines =
      (true, [FileWrite.truncateWrite nl]) := by
  cases hdb : db et with
  | none => left; simp [fix_error, hdb]
  | some ps =>
    by_cases hr : lines.length < n ∨ n = 0
    · left; rcases hr with h | h <;> simp [fix_error, hdb, h]
    · rw [not_or] at hr
      simpa [fix_error, hdb, hr.1, hr.2] using
        tryPatterns_shape et ps lines n (lines.getD (n - 1) "")
          (get_indent (lines.getD (n - 1) "")) msg

theorem tryPatterns_false_iff (et : String) (ps : List Pattern)
    (lines : List String) (n : Nat) (t ind msg : String) :
    (tryPatterns et ps lines n t ind msg).1 = false ↔
      ps.all (fun p => (applyPattern et p lines n t ind msg).isNone) := by
  induction ps with
  | nil => simp [tryPatterns]
  | cons p rest ih =>
    cases hap : applyPattern et p lines n t ind msg with
    | some nl => simp [tryPatterns, hap]
    | none => simp [tryPatterns, hap, ih]

/-- A rule whose transform always raises: its Python callable would throw
on every input, which the embedding renders as `none`. -/
def raisingTransform : String → String → String → Option String :=
  fun _ _ _ => none

/-- A match-anything rule carrying the raising transform. -/
def raisingRule : Pattern :=
  { detect := fun _ => true,
    fix := FixKind.transform raisingTransform,
    multiline := false }

/-- A match-anything rule whose transform succeeds. -/
def rescueRule : Pattern :=
  { detect := fun _ => true,
    fix := FixKind.transform (fun _ _ _ => some "fixed"),
    multiline := false }

/-- A registry whose class `E` lists the raising rule before the rescuing
rule. -/
def db5 : String → Option (List Pattern)
  | "E" => some [raisingRule, rescueRule]
  | _ => none

/-- C5: counterexample.  The first matching rule's transform raises, yet
the patch attempt succeeds, because the pattern loop of `fix_error`
catches the exception and falls through to the next rule
(universal_debugger.py:889-893); so a raising transform does not make the
attempt fail as the claim states. -/
theorem C5_counterexample_raise_falls_through :
    raisingRule.detect "x\n" = true ∧
    raisingTransform "x\n" "" "m" = none ∧
    applyPattern "E" raisingRule ["x\n"] 1 "x\n" "" "m" = none ∧
    fix_error db5 "E" 1 "m" ["x\n"] =
      (true, [FileWrite.truncateWrite ["fixed\n"]]) :=
  ⟨rfl, rfl, by decide, by decide⟩

/-- C5 (amended): the patch engine returns failure exactly when the failure
class is absent from the database, the reported line number is outside the
buffer's range, or no rule of the class both matches the failing line and
applies successfully; a rule whose transform raises does not itself fail
the attempt but falls through to the next rule, so the attempt fails only
when every rule fails to match or to apply. -/
theorem C5_failure_characterization (db : String → Option (List Pattern))
    (et : String) (n : Nat) (msg : String) (lines : List String) :
    (fix_error db et n msg lines).1 = false ↔
      (db et).isNone ∨ lines.length < n ∨ n = 0 ∨
      ((db et).getD []).all (fun p =>
        (applyPattern et p lines n (lines.getD (n - 1) "")
          (get_indent (lines.getD (n - 1) "")) msg).isNone) := by
  cases hdb : db et with
  | none => simp [fix_error, hdb]
  | some ps =>
    by_cases hr : lines.length < n ∨ n = 0
    · rcases hr with h | h <;> simp [fix_error, hdb, h]
    · rw [not_or] at hr
      simp [fix_error, hdb, hr.1, hr.2, tryPatterns_false_iff]

/-- C6: counterexample.  A successful KeyError patch persists the buffer
with a single direct truncating write of the target file (the
`open(file_path, 'w')` plus `writelines` of universal_debugger.py:884-885);
no write-then-rename or equivalent atomic mechanism is used. -/
theorem C6_counterexample_direct_truncating_write :
    fix_error ERROR_DATABASE "KeyError" 1 "m" ["x = d[k]\n"] =
      (true, [FileWrite.truncateWrite ["x = d.get(k, None)\n"]]) ∧
    isWriteThenRename (FileWrite.truncateWrite ["x = d.get(k, None)\n"]) =
      false :=
  ⟨by decide, rfl⟩

/-- C6 (amended): every write the patch engine performs is a direct
truncating in-place write of the target file; the engine never persists the
buffer through a write-then-rename step. -/
theorem C6_every_write_is_truncating (db : String → Option (List Pattern))
    (et : String) (n : Nat) (msg : String) (lines : List String) :
    ((fix_error db et n msg lines).2).all
      (fun w => !(isWriteThenRename w)) = true := by
  rcases fix_error_shape db et n msg lines with h | ⟨nl, h⟩ <;>
    simp [h, isWriteThenRename]

/-- C10: every invocation of `fix_error` that returns failure performs no
write at all: an absent failure class, an out-of-range line number, and a
pattern loop in which no rule applies all leave the write list empty (and
the unreadable-file path returns before any write by the same token). -/
theorem C10_failed_attempt_writes_nothing (db : String → Option (List Pattern))
    (et : String) (n : Nat) (msg : String) (lines : List String)
    (h : (fix_error db et n msg lines).1 = false) :
    (fix_error db et n msg lines).2 = [] := by
  rcases fix_error_shape db et n msg lines with hs | ⟨nl, hs⟩
  · simp [hs]
  · rw [hs] at h; simp at h

/-- Witness for C10: a failure class with no database entry fails and
writes nothing. -/
theorem C10_failed_attempt_writes_nothing_witness :
    (fix_error ERROR_DATABASE "CustomDomainError" 1 "m" ["x\n"]).1 = false ∧
    (fix_error ERROR_DATABASE "CustomDomainError" 1 "m" ["x\n"]).2 = [] :=
  ⟨by decide,
   C10_failed_attempt_writes_nothing ERROR_DATABASE "CustomDomainError" 1 "m"
     ["x\n"] (by decide)⟩

/-- The Python 3.11-style UnboundLocalError message for variable `x`, with
the quotes assembled from `sqc`. -/
def msg7 : String :=
  "local variable " ++ String.mk [sqc] ++ "x" ++ String.mk [sqc] ++
    " referenced before assignment"

/-- A function whose body already carries the initializer comment line the
handler itself would insert; the failing use of `x` is at line 3. -/
def lines7 : List String :=
  ["def f():\n", "    x = None  # Initialize to fix UnboundLocalError\n",
   "    print(x)\n"]

/-- C7: counterexample.  When an initializer for the same symbol already
exists near the scope header, the special handler returns the
already-initialized sentinel and `fix_error` falls through to no further
rule, reporting failure — not the no-op success the claim states. -/
theorem C7_counterexample_noop_reports_failure :
    fixUnboundLocal lines7 3 (get_indent (lines7.getD 2 "")) msg7 =
      ULResult.alreadyInit ∧
    fix_error ERROR_DATABASE "UnboundLocalError" 3 msg7 lines7 =
      (false, []) :=
  ⟨by decide, by decide⟩

/-- C7 (amended): for every PrependInScope patch, when an initializer for
the same symbol already exists near the enclosing scope header (detected by
simple text containment), the buffer is left unchanged but the patch engine
reports failure — the attempt falls through the class's single rule and
`fix_error` returns failure without writing, rather than the claimed no-op
success. -/
theorem C7_already_initialized_fails (lines : List String) (n : Nat)
    (msg : String) (h1 : 1 ≤ n) (h2 : n ≤ lines.length)
    (hA : fixUnboundLocal lines n (get_indent (lines.getD (n - 1) "")) msg =
      ULResult.alreadyInit) :
    fix_error ERROR_DATABASE "UnboundLocalError" n msg lines = (false, []) := by
  have hdb : ERROR_DATABASE "UnboundLocalError" = some [ULP] := rfl
  have hr1 : ¬ lines.length < n := by omega
  have hr2 : ¬ n = 0 := by omega
  rw [List.getD_eq_getElem?_getD] at hA
  simp [fix_error, hdb, hr1, hr2, tryPatterns, applyPattern, ULP, hA]

/-- Witness for C7 (amended) at the concrete buffer `lines7`. -/
theorem C7_already_initialized_fails_witness :
    fix_error ERROR_DATABASE "UnboundLocalError" 3 msg7 lines7 =
      (false, []) :=
  C7_already_initialized_fails lines7 3 msg7 (by decide) (by decide)
    (by decide)

theorem tryPatterns_skip_nonmatching (et : String) (pre : List Pattern)
    (p : Pattern) (rest : List Pattern) (lines : List String) (n : Nat)
    (t ind msg : String)
    (hpre : ∀ q ∈ pre, q.detect t = false) :
    tryPatterns et (pre ++ p :: rest) lines n t ind msg =
      tryPatterns et (p :: rest) lines n t ind msg := by
  induction pre with
  | nil => rfl
  | cons q qs ih =>
    have hq : q.detect t = false := hpre q (by simp)
    have hap : applyPattern et q lines n t ind msg = none := by
      simp [applyPattern, hq]
    simpa [tryPatterns, hap] using ih (fun r hr => hpre r (by simp [hr]))

/-- C8: for every failure class and failing line, the class's rules are
tried strictly in list order: every rule listed before `p` whose trigger
does not match the failing line's text is skipped, and `p` — the first
matching rule — is the one applied; its successful output is the buffer
written back. -/
theorem C8_first_matching_rule_wins (db : String → Option (List Pattern))
    (et : String) (n : Nat) (msg : String) (lines : List String)
    (pre rest : List Pattern) (p : Pattern) (out : List String)
    (hdb : db et = some (pre ++ p :: rest))
    (h1 : 1 ≤ n) (h2 : n ≤ lines.length)
    (hpre : ∀ q ∈ pre, q.detect (lines.getD (n - 1) "") = false)
    (hp : p.detect (lines.getD (n - 1) "") = true)
    (happ : applyPattern et p lines n (lines.getD (n - 1) "")
      (get_indent (lines.getD (n - 1) "")) msg = some out) :
    fix_error db et n msg lines = (true, [FileWrite.truncateWrite out]) := by
  have hr1 : ¬ lines.length < n := by omega
  have hr2 : ¬ n = 0 := by omega
  rw [fix_error, hdb]
  simp only [hr1, hr2, or_self, if_false, ite_false, or_false, false_or]
  rw [tryPatterns_skip_nonmatching et pre p rest lines n _ _ msg hpre]
  simp only [List.getD_eq_getElem?_getD] at happ
  simp [tryPatterns, happ]

/-- The chained-access failing line of the claim's example: both the first
(chained-access) and the second (literal-key) KeyError rules match it. -/
def tl8 : String := "x = data[\"a\"][\"b\"]\n"

/-- The buffer the first KeyError rule produces for `tl8`. -/
def out8 : List String :=
  ["try:\n    x = data[\"a\"][\"b\"]\nexcept (IndexError, KeyError, TypeError):\n    return \x7b\x7d\n"]

/-- Witness for C8: on `tl8` the chained-access rule `KE0` and the
literal-key rule `KE1` both match, and the earlier-listed `KE0` is the one
applied. -/
theorem C8_first_matching_rule_wins_witness :
    KE0.detect tl8 = true ∧ KE1.detect tl8 = true ∧
    fix_error ERROR_DATABASE "KeyError" 1 "m" [tl8] =
      (true, [FileWrite.truncateWrite out8]) :=
  ⟨by decide, by decide,
   C8_first_matching_rule_wins ERROR_DATABASE "KeyError" 1 "m" [tl8]
     [] [KE1, KE2] KE0 out8 rfl (by decide) (by decide)
     (by intro q hq; cases hq) (by decide) (by decide)⟩

theorem collectFrames_eq_filter (ls : List String) :
    collectFrames ls =
      (rawFrames ls).filter (fun p => !(isInternalPath p.1)) := by
  induction ls with
  | nil => rfl
  | cons l t ih =>
    cases h : extractFrame l with
    | none =>
      simp [collectFrames, rawFrames, List.filterMap_cons, h] at ih ⊢
      exact ih
    | some fr =>
      by_cases hint : isInternalPath fr.1
      · simp [collectFrames, rawFrames, List.filterMap_cons, h, hint,
          List.filter_cons] at ih ⊢
        exact ih
      · simp [collectFrames, rawFrames, List.filterMap_cons, h, hint,
          List.filter_cons] at ih ⊢
        exact ih

theorem parse_error_frame_eq_spec (ls : List String)
    (target : Option String) :
    parse_error_frame ls target = specSelectFrame (collectFrames ls) target := by
  cases target with
  | none =>
    simp only [parse_error_frame, specSelectFrame]
    cases collectFrames ls <;> simp
  | some t =>
    simp only [parse_error_frame, specSelectFrame]
    cases hall : collectFrames ls with
    | nil => simp
    | cons a as =>
      cases htf : (a :: as).filter (fun p => p.1 == t) with
      | nil => simp [htf]
      | cons b bs =>
        simp [htf]

/-- C9: the diagnostic parser collects the stack-frame references of the
failure output in text (outer-to-inner) order with the runtime's internal
frames discarded, and its selection matches the claimed rule: with a
target-file filter it picks the innermost (last) frame of that file, and
when no collected frame belongs to the target file, or no filter is given,
it picks the innermost collected frame overall. -/
theorem C9_frame_collection_and_selection (ls : List String)
    (target : Option String) :
    collectFrames ls =
      (rawFrames ls).filter (fun p => !(isInternalPath p.1)) ∧
    parse_error_frame ls target = specSelectFrame (collectFrames ls) target :=
  ⟨collectFrames_eq_filter ls, parse_error_frame_eq_spec ls target⟩

theorem toList_eq_nil_iff (s : String) : s.toList = [] ↔ s = "" := by
  constructor
  · intro h
    cases s with
    | mk data => cases data with
      | nil => rfl
      | cons c cs => simp [String.toList] at h
  · intro h; rw [h]; rfl

theorem splitNlChars_of_not_mem (x : List Char) (hx : Char.ofNat 10 ∉ x) :
    splitNlChars x = [x] := by
  induction x with
  | nil => rfl
  | cons c cs ih =>
    have hc : ¬ c = Char.ofNat 10 := fun h => hx (by simp [h])
    have hcs : Char.ofNat 10 ∉ cs := fun h => hx (List.mem_cons_of_mem _ h)
    simp [splitNlChars, hc, ih hcs]

theorem splitNlChars_append_nl (x r : List Char)
    (hx : Char.ofNat 10 ∉ x) :
    splitNlChars (x ++ Char.ofNat 10 :: r) = x :: splitNlChars r := by
  induction x with
  | nil => simp [splitNlChars]
  | cons c cs ih =>
    have hc : ¬ c = Char.ofNat 10 := fun h => hx (by simp [h])
    have hcs : Char.ofNat 10 ∉ cs := fun h => hx (List.mem_cons_of_mem _ h)
    have hr := ih hcs
    simp only [List.cons_append, splitNlChars, hr, hc, if_false, ite_false]
    cases hrest : splitNlChars r <;> simp [hrest] at hr ⊢ <;> simp [hr]

theorem splitNl_joinNl_trail (F : List String) (hne : F ≠ [])
    (h : ∀ f ∈ F, Char.ofNat 10 ∉ f.toList) :
    splitNl (joinNl F ++ "\n") = F ++ [""] := by
  induction F with
  | nil => cases hne rfl
  | cons x ys ih =>
    cases ys with
    | nil =>
      have hx := h x (by simp)
      have hchars : (joinNl [x] ++ "\n").toList =
          x.toList ++ Char.ofNat 10 :: [] := by
        simp [joinNl, String.toList, String.data_append]
      simp only [splitNl, hchars, splitNlChars_append_nl _ _ hx]
      simp [splitNlChars]
    | cons y t =>
      have hx := h x (by simp)
      have hrest : ∀ f ∈ y :: t, Char.ofNat 10 ∉ f.toList := fun f hf =>
        h f (by simp [hf])
      have ihr := ih (by simp) hrest
      have hchars : (joinNl (x :: y :: t) ++ "\n").toList =
          x.toList ++ Char.ofNat 10 :: (joinNl (y :: t) ++ "\n").toList := by
        show ((x ++ "\n" ++ joinNl (y :: t)) ++ "\n").data =
          x.data ++ Char.ofNat 10 :: ((joinNl (y :: t) ++ "\n")).data
        simp [String.data_append]
      simp only [splitNl, hchars, splitNlChars_append_nl _ _ hx]
      simp only [List.map_cons]
      rw [show String.mk x.toList = x from rfl]
      simp only [splitNl] at ihr
      rw [ihr]
      simp

theorem toList_append (a b : String) :
    (a ++ b).toList = a.toList ++ b.toList := String.data_append a b

theorem spaces_no_nl (n : Nat) : Char.ofNat 10 ∉ (spaces n).toList := by
  intro h
  have h2 : Char.ofNat 10 ∈ List.replicate n ' ' := h
  exact absurd (List.eq_of_mem_replicate h2) (by decide)

theorem no_nl_append {a b : String} (ha : Char.ofNat 10 ∉ a.toList)
    (hb : Char.ofNat 10 ∉ b.toList) : Char.ofNat 10 ∉ (a ++ b).toList := by
  rw [toList_append]
  simp only [List.mem_append]
  rintro (h | h)
  · exact ha h
  · exact hb h

theorem pyLstrip_no_nl {s : String} (h : Char.ofNat 10 ∉ s.toList) :
    Char.ofNat 10 ∉ (pyLstrip s).toList := by
  intro hc
  have hc2 : Char.ofNat 10 ∈ s.toList.dropWhile pyIsSpace := hc
  exact h ((List.dropWhile_sublist _).subset hc2)

theorem append_ne_empty_right {a b : String} (hb : b ≠ "") : a ++ b ≠ "" := by
  intro hc
  apply hb
  have h0 : (a ++ b).toList = [] := by rw [hc]; rfl
  rw [toList_append] at h0
  rcases List.append_eq_nil.mp h0 with ⟨h1, h2⟩
  exact (toList_eq_nil_iff b).mp h2

theorem pyLstrip_ne_empty {s : String} (h : pyStrip s ≠ "") :
    pyLstrip s ≠ "" := by
  intro hc
  apply h
  show pyRstrip (pyLstrip s) = ""
  rw [hc]
  rfl

theorem wrapped_filter (inner : String) (base : Nat) (bls : List String) :
    ((bls.map (fun bl =>
        if pyStrip bl = "" then ""
        else inner ++ spaces (indentWidth bl - base) ++ pyLstrip bl)).filter
      (fun l => !decide (l = ""))) =
      (bls.filter (fun l => !decide (pyStrip l = ""))).map (fun bl =>
        inner ++ spaces (indentWidth bl - base) ++ pyLstrip bl) := by
  induction bls with
  | nil => rfl
  | cons bl t ih =>
    by_cases hblank : pyStrip bl = ""
    · simp [hblank]
      simpa using ih
    · have hne : inner ++ spaces (indentWidth bl - base) ++ pyLstrip bl ≠ "" :=
        append_ne_empty_right (pyLstrip_ne_empty hblank)
      simp [hblank, hne]
      simpa using ih

/-- A block-opening buffer whose span contains a blank line: the `with`
header at 1-based line 1 opens a block covering lines 2-4, with line 3
blank. -/
def ex4 : List String :=
  ["with open(\"f\") as f:\n", "    a = f.read()\n", "\n", "    b = 1\n"]

/-- The buffer `fix_error` writes for `ex4`: six lines, none of them
blank. -/
def out4 : List String :=
  ["try:\n", "    with open(\"f\") as f:\n", "        a = f.read()\n",
   "        b = 1\n", "except FileNotFoundError:\n", "    return \x7b\x7d\n"]

/-- C4: counterexample.  The Block-scope span of `ex4` contains a blank
line, but the buffer spliced back and written to disk contains no blank
line at all: the splice of `fix_error` (universal_debugger.py:864) filters
empty lines out of the replacement, so the span's blank line is dropped
rather than kept blank. -/
theorem C4_counterexample_blank_line_dropped :
    (get_indented_block ex4 0).1.contains "" = true ∧
    fix_error ERROR_DATABASE "FileNotFoundError" 1 "m" ex4 =
      (true, [FileWrite.truncateWrite out4]) ∧
    out4.all (fun l => !(pyStrip l == "")) = true :=
  ⟨by decide, by decide, by decide⟩

/-- C4 (amended): `wrap_block_in_try_except` keeps each blank line of the
span as an empty line of the replacement text, but the splice step of
`fix_error` drops empty lines, so the replacement spliced into the buffer
consists of the try header, the re-indented non-blank span lines only, the
except header and the return line — every blank line of the span is
removed from the patched buffer instead of being kept blank. -/
theorem C4_splice_drops_blank_lines (block_lines : List String)
    (base : Nat) (et : String)
    (hb : ∀ l ∈ block_lines, Char.ofNat 10 ∉ l.toList)
    (het : Char.ofNat 10 ∉ et.toList) :
    blockReplacementLines (wrap_block_in_try_except block_lines base et) =
      ((spaces base ++ "try:") ::
        ((block_lines.filter (fun l => pyStrip l ≠ "")).map (fun bl =>
          spaces (base + 4) ++ spaces (indentWidth bl - base) ++ pyLstrip bl))
        ++ [spaces base ++ "except " ++ et ++ ":",
            spaces (base + 4) ++ "return \x7b\x7d"]).map
        (fun l => l ++ "\n") := by
  have hwrap : wrap_block_in_try_except block_lines base et =
      joinNl ((spaces base ++ "try:") ::
        (block_lines.map (fun bl =>
          if pyStrip bl ≠ "" then
            spaces (base + 4) ++ spaces (indentWidth bl - base) ++ pyLstrip bl
          else "")) ++
        [spaces base ++ "except " ++ et ++ ":",
         spaces (base + 4) ++ "return \x7b\x7d"]) ++ "\n" := rfl
  have hFnl : ∀ f ∈ ((spaces base ++ "try:") ::
      (block_lines.map (fun bl =>
        if pyStrip bl ≠ "" then
          spaces (base + 4) ++ spaces (indentWidth bl - base) ++ pyLstrip bl
        else "")) ++
      [spaces base ++ "except " ++ et ++ ":",
       spaces (base + 4) ++ "return \x7b\x7d"]),
      Char.ofNat 10 ∉ f.toList := by
    intro f hf
    simp only [List.mem_cons, List.mem_append, List.mem_map,
      List.mem_singleton] at hf
    rcases hf with (rfl | ⟨bl, hbl, rfl⟩) | rfl | rfl | hemp
    · exact no_nl_append (spaces_no_nl base) (by decide)
    · by_cases hbk : pyStrip bl = ""
      · simp [hbk]
      · simp only [hbk, ne_eq, not_false_iff, if_true, ite_true]
        exact no_nl_append
          (no_nl_append (spaces_no_nl (base + 4))
            (spaces_no_nl (indentWidth bl - base)))
          (pyLstrip_no_nl (hb bl hbl))
    · exact no_nl_append
        (no_nl_append (no_nl_append (spaces_no_nl base) (by decide)) het)
        (by decide)
    · exact no_nl_append (spaces_no_nl (base + 4)) (by decide)
    · cases hemp
  have hsplit := splitNl_joinNl_trail _ (by simp) hFnl
  show ((splitNl (wrap_block_in_try_except block_lines base et)).filter
      (fun l => l ≠ "")).map (fun l => l ++ "\n") = _
  rw [hwrap, hsplit]
  have hheader : (spaces base ++ "try:") ≠ "" :=
    append_ne_empty_right (by decide)
  have hexc : (spaces base ++ "except " ++ et ++ ":") ≠ "" :=
    append_ne_empty_right (by decide)
  have hret : (spaces (base + 4) ++ "return \x7b\x7d") ≠ "" :=
    append_ne_empty_right (by decide)
  have hmid := wrapped_filter (spaces (base + 4)) base block_lines
  simp [List.filter_append, List.filter_cons, hheader, hexc, hret, hmid,
    List.map_map]

/-- Witness for C4 (amended) at the concrete span of `ex4`. -/
theorem C4_splice_drops_blank_lines_witness :
    blockReplacementLines (wrap_block_in_try_except
        ["with open(\"f\") as f:", "    a = f.read()", "", "    b = 1"] 0
        "FileNotFoundError") =
      ((spaces 0 ++ "try:") ::
        ((["with open(\"f\") as f:", "    a = f.read()", "",
           "    b = 1"].filter (fun l => pyStrip l ≠ "")).map (fun bl =>
          spaces (0 + 4) ++ spaces (indentWidth bl - 0) ++ pyLstrip bl))
        ++ [spaces 0 ++ "except " ++ "FileNotFoundError" ++ ":",
            spaces (0 + 4) ++ "return \x7b\x7d"]).map
        (fun l => l ++ "\n") :=
  C4_splice_drops_blank_lines
    ["with open(\"f\") as f:", "    a = f.read()", "", "    b = 1"] 0
    "FileNotFoundError" (by decide) (by decide)
